import Mathlib

/-!
# Verification of the BMS-Data showtime aggregation core (`src/app.py`)

Shallow embedding of the fetch-aggregate pipeline of `src/app.py`:
`retry_with_backoff`, `fetch_showtimes`, `process_showtime_data`,
`fetch_all_showtimes`, and the `if not results` check in `main`.

Modelling conventions:
* Python floats are modelled as rationals (`ℚ`); Python ints as `Int`.
* A JSON scalar field of a category is a `JVal`; an absent key is `Option.none`.
* Python exceptions are modelled with `Except String`; the string names the
  Python exception class.
* A nested array field guarded by a truthiness test (`if d.get("K"):`) is an
  `Option (List _)`; `optList` maps the guard + loop to a loop over a plain
  list (both `None`/absent and the empty list iterate zero times).
-/

namespace BMS

/-- A JSON scalar value as delivered by the upstream API: `null`, a string,
an integer, or a float (modelled as a rational). -/
inductive JVal where
  | null
  | str (s : String)
  | int (n : Int)
  | float (q : ℚ)
deriving DecidableEq, Repr

/-- A seating category inside one showtime.  Each field is `none` when the
key is absent from the JSON object. -/
structure Category where
  MaxSeats : Option JVal
  SeatsAvail : Option JVal
  CurPrice : Option JVal
deriving DecidableEq, Repr

/-- One showtime; `Categories` is `none` when the key is absent or null. -/
structure ShowTime where
  Categories : Option (List Category)
deriving DecidableEq, Repr

/-- One venue; `ShowTimes` is `none` when the key is absent or null. -/
structure Venue where
  ShowTimes : Option (List ShowTime)
deriving DecidableEq, Repr

/-- One show detail block; `Venues` is `none` when the key is absent. -/
structure ShowDetail where
  Venues : Option (List Venue)
deriving DecidableEq, Repr

/-- The payload returned by the API: a JSON object whose only consumed key is
`ShowDetails`. -/
structure Payload where
  ShowDetails : Option (List ShowDetail)
deriving DecidableEq, Repr

/-- `optList` models the Python idiom `if d.get("K"): for x in d["K"]`:
an absent/null key and an empty list both iterate zero times. -/
def optList : Option (List α) → List α
  | some l => l
  | none => []

end BMS

namespace BMS

/-- Value of a list of decimal digit characters. -/
def digitsToNat (cs : List Char) : Nat :=
  cs.foldl (fun a c => a * 10 + (c.toNat - 48)) 0

/-- Python `int(s)` on a string: optional sign followed by decimal digits;
anything else raises `ValueError`. -/
def pyIntOfString (s : String) : Except String Int :=
  let p : Bool × List Char :=
    match s.toList with
    | '-' :: r => (true, r)
    | '+' :: r => (false, r)
    | r => (false, r)
  if !p.2.isEmpty && p.2.all Char.isDigit then
    .ok (if p.1 then -(digitsToNat p.2 : Int) else (digitsToNat p.2 : Int))
  else .error "ValueError"

/-- Python `float(s)` on a string of the form `[sign]digits[.digits]`;
anything else raises `ValueError`. -/
def pyFloatOfString (s : String) : Except String ℚ :=
  let p : ℚ × List Char :=
    match s.toList with
    | '-' :: r => (-1, r)
    | '+' :: r => (1, r)
    | r => (1, r)
  let ip := p.2.takeWhile Char.isDigit
  match p.2.dropWhile Char.isDigit with
  | [] =>
    if ip.isEmpty then .error "ValueError"
    else .ok (p.1 * (digitsToNat ip : ℚ))
  | '.' :: fp =>
    if fp.all Char.isDigit && (!ip.isEmpty || !fp.isEmpty) then
      .ok (p.1 * ((digitsToNat ip : ℚ) + (digitsToNat fp : ℚ) / (10 : ℚ) ^ fp.length))
    else .error "ValueError"
  | _ => .error "ValueError"

/-- Truncation toward zero, the behaviour of Python `int()` on a float. -/
def pyTrunc (q : ℚ) : Int := if 0 ≤ q then ⌊q⌋ else -⌊-q⌋

/-- Python `int(v)` on a JSON scalar: `int(None)` raises `TypeError`,
`int` of a non-numeric string raises `ValueError`. -/
def pyInt : JVal → Except String Int
  | .null => .error "TypeError"
  | .str s => pyIntOfString s
  | .int n => .ok n
  | .float q => .ok (pyTrunc q)

/-- Python `float(v)` on a JSON scalar: `float(None)` raises `TypeError`,
`float` of a non-numeric string raises `ValueError`. -/
def pyFloat : JVal → Except String ℚ
  | .null => .error "TypeError"
  | .str s => pyFloatOfString s
  | .int n => .ok (n : ℚ)
  | .float q => .ok q

/-- Round a rational to the nearest integer, ties to even — the rounding of
Python's `format(x, '.2f')` (applied here to the exact rational value). -/
def roundHalfEven (q : ℚ) : Int :=
  let f := ⌊q⌋
  let r := q - (f : ℚ)
  if r < 1 / 2 then f
  else if 1 / 2 < r then f + 1
  else if f % 2 = 0 then f else f + 1

/-- Python `f"{x:.2f}"`: two-decimal fixed-point rendering of a number. -/
def fmt2 (q : ℚ) : String :=
  let n := roundHalfEven (q * 100)
  let sign := if n < 0 then "-" else ""
  let m := n.natAbs
  let ip := m / 100
  let fp := m % 100
  sign ++ toString ip ++ "." ++ (if fp < 10 then "0" ++ toString fp else toString fp)

/-- Per-showtime accumulator of `process_showtime_data`'s inner loop
(`total_max_seats`, `total_seats_available`, `total_booked_tickets`,
`total_gross`, `booked_gross`). -/
structure ShowAgg where
  total_max_seats : Int
  total_seats_available : Int
  total_booked_tickets : Int
  total_gross : ℚ
  booked_gross : ℚ
deriving DecidableEq, Repr

/-- All-zero per-showtime accumulator. -/
def initShowAgg : ShowAgg := ⟨0, 0, 0, 0, 0⟩

/-- `fast_filling_threshold = 70` from the source. -/
def fast_filling_threshold : ℚ := 70

/-- One iteration of the `for category in show_time["Categories"]` loop.
`int(category.get("MaxSeats", 0)) or 0`: the `.get` default `0` covers an
absent key; `int`/`float` of the present value may raise; the trailing
`or 0` is the identity on the numeric result. -/
def stepCategory (acc : ShowAgg) (category : Category) : Except String ShowAgg := do
  let max_seats ← pyInt (category.MaxSeats.getD (.int 0))
  let seats_avail ← pyInt (category.SeatsAvail.getD (.int 0))
  let booked_tickets := max_seats - seats_avail
  let current_price ← pyFloat (category.CurPrice.getD (.int 0))
  pure {
    total_max_seats := acc.total_max_seats + max_seats
    total_seats_available := acc.total_seats_available + seats_avail
    total_booked_tickets := acc.total_booked_tickets + booked_tickets
    total_gross := acc.total_gross + (max_seats : ℚ) * current_price
    booked_gross := acc.booked_gross + (booked_tickets : ℚ) * current_price }

/-- The `for category in show_time["Categories"]` loop. -/
def processCategories (acc : ShowAgg) : List Category → Except String ShowAgg
  | [] => pure acc
  | c :: cs => do
    let acc' ← stepCategory acc c
    processCategories acc' cs

/-- `show_occupancy = (total_booked_tickets / total_max_seats * 100) if
total_max_seats > 0 else 0` (Python int `/` int is float division). -/
def showOccupancy (a : ShowAgg) : ℚ :=
  if a.total_max_seats > 0 then
    (a.total_booked_tickets : ℚ) / (a.total_max_seats : ℚ) * 100
  else 0

/-- Per-city accumulator of `process_showtime_data`'s outer loops. -/
structure Grand where
  grand_total_max_seats : Int
  grand_total_seats_available : Int
  grand_total_booked_tickets : Int
  grand_total_gross : ℚ
  grand_booked_gross : ℚ
  total_show_count : Nat
  fast_filling_show_count : Nat
  sold_out_show_count : Nat
deriving DecidableEq, Repr

/-- All-zero per-city accumulator. -/
def initGrand : Grand := ⟨0, 0, 0, 0, 0, 0, 0, 0⟩

/-- One iteration of the `for show_time in venue["ShowTimes"]` loop:
increment `total_show_count`, fold the categories, classify the showtime,
accumulate the grand totals. -/
def stepShowTime (g : Grand) (show_time : ShowTime) : Except String Grand := do
  let g1 : Grand := { g with total_show_count := g.total_show_count + 1 }
  let a ← processCategories initShowAgg (optList show_time.Categories)
  let show_occupancy := showOccupancy a
  let g2 : Grand :=
    { g1 with
      fast_filling_show_count :=
        if fast_filling_threshold ≤ show_occupancy ∧ show_occupancy < 100 then
          g1.fast_filling_show_count + 1
        else g1.fast_filling_show_count
      sold_out_show_count :=
        if show_occupancy ≥ 99.5 then g1.sold_out_show_count + 1
        else g1.sold_out_show_count }
  pure { g2 with
    grand_total_max_seats := g2.grand_total_max_seats + a.total_max_seats
    grand_total_seats_available := g2.grand_total_seats_available + a.total_seats_available
    grand_total_booked_tickets := g2.grand_total_booked_tickets + a.total_booked_tickets
    grand_total_gross := g2.grand_total_gross + a.total_gross
    grand_booked_gross := g2.grand_booked_gross + a.booked_gross }

/-- The `for show_time in venue["ShowTimes"]` loop. -/
def processShowTimes (g : Grand) : List ShowTime → Except String Grand
  | [] => pure g
  | st :: sts => do
    let g' ← stepShowTime g st
    processShowTimes g' sts

/-- The `for venue in show_detail["Venues"]` loop. -/
def processVenues (g : Grand) : List Venue → Except String Grand
  | [] => pure g
  | v :: vs => do
    let g' ← processShowTimes g (optList v.ShowTimes)
    processVenues g' vs

/-- The `for show_detail in data["ShowDetails"]` loop. -/
def processShowDetails (g : Grand) : List ShowDetail → Except String Grand
  | [] => pure g
  | sd :: sds => do
    let g' ← processVenues g (optList sd.Venues)
    processShowDetails g' sds

/-- The per-city summary row returned by `process_showtime_data`. -/
structure CitySummary where
  AreaName : String
  ShowCount : Nat
  FastFillingShows : Nat
  SoldOutShows : Nat
  Occupancy : String
  BookedGross : ℚ
  MaxCapacityGross : ℚ
  BookedTicketsCount : Int
  TotalTicketsCount : Int
deriving DecidableEq, Repr

/-- `process_showtime_data(area_name, data)`.  The guard
`if data and data.get("ShowDetails"):` is captured by matching on the
optional payload and iterating `optList p.ShowDetails` (a falsy payload or
a falsy `ShowDetails` iterates zero times).  A Python exception raised by a
numeric coercion aborts the whole call (`Except.error`). -/
def process_showtime_data (area_name : String) (data : Option Payload) :
    Except String CitySummary := do
  let g ← match data with
    | some p => processShowDetails initGrand (optList p.ShowDetails)
    | none => pure initGrand
  let grand_occupancy : ℚ :=
    if g.grand_total_max_seats > 0 then
      (g.grand_total_booked_tickets : ℚ) / (g.grand_total_max_seats : ℚ) * 100
    else 0
  pure {
    AreaName := area_name
    ShowCount := g.total_show_count
    FastFillingShows := g.fast_filling_show_count
    SoldOutShows := g.sold_out_show_count
    Occupancy := fmt2 grand_occupancy ++ "%"
    BookedGross := g.grand_booked_gross
    MaxCapacityGross := g.grand_total_gross
    BookedTicketsCount := g.grand_total_booked_tickets
    TotalTicketsCount := g.grand_total_max_seats }

end BMS

namespace BMS

/-- Outcome of one attempt of a wrapped operation: a returned value, or a
raised `requests.exceptions.RequestException` (the only class the retry
wrapper catches; any other exception would propagate immediately, which no
claim exercises). -/
inductive Outcome (α : Type) where
  | ok (a : α)
  | netErr (e : String)
deriving DecidableEq, Repr

/-- The `while True` loop of `retry_with_backoff`'s `wrapper`, with the
attempt counter `x` and the remaining retry budget `retries - x` made
explicit.  `f x` is attempt number `x` of the wrapped function.  Returns the
final result (`Except.error e` models `raise e`) together with the list of
attempt indices performed; a `time.sleep` occurs between each pair of
consecutive attempts, so the number of delays is the list length minus 1. -/
def retryAux (f : Nat → Outcome α) (x : Nat) : Nat → Except String α × List Nat
  | 0 =>
    match f x with
    | .ok a => (.ok a, [x])
    | .netErr e => (.error e, [x])
  | n + 1 =>
    match f x with
    | .ok a => (.ok a, [x])
    | .netErr _e =>
      let p := retryAux f (x + 1) n
      (p.1, x :: p.2)

/-- `retry_with_backoff(retries)(func)` applied once: run the attempt
sequence `f` starting at `x = 0` with the given retry budget. -/
def retry_with_backoff (retries : Nat) (f : Nat → Outcome α) :
    Except String α × List Nat :=
  retryAux f 0 retries

/-- Result of the single `requests.get` + `raise_for_status` + `.json()`
sequence inside `fetch_showtimes`: a parsed payload, an HTTP error status
(raised by `raise_for_status` as `HTTPError`), or a transport-layer failure
(`ConnectionError`, `Timeout`, … — a `RequestException` that is not an
`HTTPError`). -/
inductive HttpResult where
  | success (body : Payload)
  | httpError (status : Nat)
  | transportError (e : String)
deriving DecidableEq, Repr

/-- The body of `fetch_showtimes` for one attempt.  The `except
requests.exceptions.HTTPError` arm returns `None` (both the 429 branch and
the generic branch), and the blanket `except Exception` arm also returns
`None` — so every failure, transport failures included, is swallowed and
the function returns normally; no exception ever escapes to the retry
wrapper. -/
def fetch_showtimes_body : HttpResult → Option Payload
  | .success body => some body
  | .httpError _ => none
  | .transportError _ => none

/-- `fetch_showtimes(city)` as wrapped by `@retry_with_backoff(retries=3)`:
attempt `x` of the wrapped function observes HTTP outcome `responses x` and
returns `fetch_showtimes_body (responses x)` without raising, hence is an
`Outcome.ok` for the wrapper. -/
def fetch_showtimes (responses : Nat → HttpResult) :
    Except String (Option Payload) × List Nat :=
  retry_with_backoff 3 (fun x => Outcome.ok (fetch_showtimes_body (responses x)))

/-- The `for city_name, city_config in CITIES.items()` loop of
`fetch_all_showtimes`: each city is paired with the value its fetch
returned (`none` for `None`; a falsy empty-dict payload is also skipped by
`if data:` and is likewise modelled as `none`).  A successful city is
processed and appended; an exception from processing aborts the whole
call. -/
def gatherResults : List (String × Option Payload) → Except String (List CitySummary)
  | [] => pure []
  | (city_name, data) :: rest =>
    match data with
    | some p => do
      let result ← process_showtime_data city_name (some p)
      let others ← gatherResults rest
      pure (result :: others)
    | none => gatherResults rest

/-- The sort key `float(x["Occupancy"].strip("%"))`: strip `%` from both
ends, then parse as a float (the strings in play have the shape
`[-]digits.digits%`, on which `pyFloatOfString` is Python `float`; on any
other shape we default to 0 where Python would raise, a case the pipeline
never produces). -/
def occKey (x : CitySummary) : ℚ :=
  let stripped := String.mk (((x.Occupancy.toList.dropWhile (· == '%')).reverse.dropWhile
    (· == '%')).reverse)
  match pyFloatOfString stripped with
  | .ok q => q
  | .error _ => 0

/-- The comparator realised by `reverse=True`: row `a` may precede row `b`
exactly when `a`'s parsed occupancy is at least `b`'s. -/
def occGE (a b : CitySummary) : Prop := occKey b ≤ occKey a

instance : DecidableRel occGE := fun a b => inferInstanceAs (Decidable (occKey b ≤ occKey a))

instance : IsTotal CitySummary occGE := ⟨fun a b => le_total (occKey b) (occKey a)⟩

instance : IsTrans CitySummary occGE := ⟨fun _ _ _ h1 h2 => le_trans h2 h1⟩

/-- `results.sort(key=..., reverse=True)`: a stable sort placing larger
occupancy keys first. -/
def pySortDesc (l : List CitySummary) : List CitySummary :=
  List.insertionSort occGE l

/-- The `totals` dict of `fetch_all_showtimes`: every numeric field is the
sum of the corresponding field over `results`, and `Occupancy` is
recomputed from the summed ticket counts. -/
def overall_total (results : List CitySummary) : CitySummary :=
  { AreaName := "OVERALL_TOTAL"
    ShowCount := (results.map (·.ShowCount)).sum
    FastFillingShows := (results.map (·.FastFillingShows)).sum
    SoldOutShows := (results.map (·.SoldOutShows)).sum
    BookedGross := (results.map (·.BookedGross)).sum
    MaxCapacityGross := (results.map (·.MaxCapacityGross)).sum
    BookedTicketsCount := (results.map (·.BookedTicketsCount)).sum
    TotalTicketsCount := (results.map (·.TotalTicketsCount)).sum
    Occupancy :=
      if (results.map (·.TotalTicketsCount)).sum > 0 then
        fmt2 (((results.map (·.BookedTicketsCount)).sum : ℚ) /
          ((results.map (·.TotalTicketsCount)).sum : ℚ) * 100) ++ "%"
      else "0.00%" }

/-- `fetch_all_showtimes()`, parameterised by the per-city fetch results:
gather the successful cities, sort descending by parsed occupancy, append
the totals row. -/
def fetch_all_showtimes (cities : List (String × Option Payload)) :
    Except String (List CitySummary) := do
  let results ← gatherResults cities
  let results := pySortDesc results
  pure (results ++ [overall_total results])

/-- The `if not results:` guard in `main`: a Python list is falsy exactly
when it is empty.  `main` shows the top-level error and renders nothing
only when this is `true`. -/
def main_reports_failure (results : List CitySummary) : Bool :=
  results.isEmpty

end BMS

namespace BMS

/-- A payload holding exactly one showtime, with the given category list:
one `ShowDetail`, one `Venue`, one `ShowTime`. -/
def singleShowtimePayload (cs : List Category) : Payload :=
  ⟨some [⟨some [⟨some [⟨some cs⟩]⟩]⟩]⟩

/-- A category is well-bounded when its coerced seat numbers (if the
coercions succeed at all) satisfy `0 ≤ seats_avail ≤ max_seats`. -/
def catOK (category : Category) : Bool :=
  match pyInt (category.MaxSeats.getD (.int 0)), pyInt (category.SeatsAvail.getD (.int 0)) with
  | .ok m, .ok a => decide (0 ≤ a ∧ a ≤ m)
  | _, _ => true

/-- All categories reachable from a list of showtimes. -/
def showTimesCats (sts : List ShowTime) : List Category :=
  (sts.map (fun st => optList st.Categories)).flatten

/-- All categories reachable from a list of venues. -/
def venuesCats (vs : List Venue) : List Category :=
  (vs.map (fun v => showTimesCats (optList v.ShowTimes))).flatten

/-- All categories reachable from a list of show details. -/
def detailsCats (sds : List ShowDetail) : List Category :=
  (sds.map (fun sd => venuesCats (optList sd.Venues))).flatten

/-- All categories reachable from a payload. -/
def payloadCats : Option Payload → List Category
  | none => []
  | some p => detailsCats (optList p.ShowDetails)

/-- Number of `time.sleep` calls of a retry run: one delay precedes every
attempt after the first. -/
def delayCount (r : Except String α × List Nat) : Nat := r.2.length - 1

end BMS

namespace BMS

/-! ### Evaluation lemmas for the `Except` monad and the formatter -/

theorem exBind_ok {α β : Type} (a : α) (f : α → Except String β) :
    (Except.ok a : Except String α) >>= f = f a := rfl

theorem exBind_err {α β : Type} (e : String) (f : α → Except String β) :
    (Except.error e : Except String α) >>= f = (Except.error e : Except String β) := rfl

theorem exPure {α : Type} (a : α) : (pure a : Except String α) = Except.ok a := rfl

theorem roundHalfEven_intCast (m : ℤ) : roundHalfEven (m : ℚ) = m := by
  simp [roundHalfEven]

theorem fmt2_zero : fmt2 0 = "0.00" := by
  have h : roundHalfEven ((0 : ℚ) * 100) = 0 := by
    have h0 : ((0 : ℚ) * 100) = ((0 : ℤ) : ℚ) := by norm_num
    rw [h0, roundHalfEven_intCast]
  simp only [fmt2, h]
  rfl

/-! ### Claim theorems -/

/-- C9: for every AreaName label, a payload that is absent (`None`) or has
no `ShowDetails` yields a `CitySummary` whose seven numeric fields are all
0 and whose `Occupancy` is `"0.00%"`. -/
theorem claim_C9 (area : String) (data : Option Payload)
    (h : data = none ∨ ∃ p, data = some p ∧ optList p.ShowDetails = []) :
    process_showtime_data area data =
      .ok ⟨area, 0, 0, 0, "0.00%", 0, 0, 0, 0⟩ := by
  have hocc : fmt2 0 ++ "%" = "0.00%" := by rw [fmt2_zero]; rfl
  rcases h with h | ⟨p, hp, hd⟩
  · subst h
    simp only [process_showtime_data, exPure, exBind_ok]
    simp [initGrand, hocc, exPure]
  · subst hp
    have hdet : processShowDetails initGrand (optList p.ShowDetails) =
        Except.ok initGrand := by rw [hd]; rfl
    simp only [process_showtime_data, hdet, exBind_ok]
    simp [initGrand, hocc, exPure]

/-- Witness for C9 at the concrete absent payload. -/
theorem claim_C9_witness :
    process_showtime_data "Hyderabad" none =
      .ok ⟨"Hyderabad", 0, 0, 0, "0.00%", 0, 0, 0, 0⟩ :=
  claim_C9 "Hyderabad" none (Or.inl rfl)

/-- C3 (code bug): when all three configured cities' fetches yield no
payload, `fetch_all_showtimes` still returns a one-element result set
containing only the all-zero `OVERALL_TOTAL` row, so `main`'s
`if not results` guard is false and no top-level failure is reported. -/
theorem claim_C3 :
    fetch_all_showtimes [("Hyderabad", none), ("Bangalore", none), ("Chennai", none)] =
      .ok [⟨"OVERALL_TOTAL", 0, 0, 0, "0.00%", 0, 0, 0, 0⟩] ∧
    main_reports_failure [⟨"OVERALL_TOTAL", 0, 0, 0, "0.00%", 0, 0, 0, 0⟩] = false :=
  ⟨rfl, rfl⟩

/-- The payload a second fetch attempt would deliver in the C8 scenario. -/
def c8Payload : Payload := ⟨some []⟩

/-- C8 (code bug): a transport failure on attempt 0 is swallowed inside
`fetch_showtimes` (blanket `except Exception` → `return None`), so the
retry wrapper observes a normal return and performs no further attempt —
even though attempt 1 would succeed with a payload.  The result is
`None` after a single attempt, not the later attempt's payload. -/
theorem claim_C8 :
    fetch_showtimes
        (fun x => if x = 0 then .transportError "ConnectionError" else .success c8Payload) =
      (.ok none, [0]) ∧
    fetch_showtimes_body (.success c8Payload) = some c8Payload :=
  ⟨rfl, rfl⟩

/-- Counterexample to C2: a category whose `MaxSeats` field is present but
null makes `process_showtime_data` raise (`int(None)` → `TypeError`)
instead of contributing 0. -/
theorem claim_C2_cex :
    process_showtime_data "Hyderabad"
        (some (singleShowtimePayload [⟨some JVal.null, none, none⟩])) =
      .error "TypeError" :=
  rfl

/-- C7: with the default policy (`retries=3`), an operation that raises a
network-layer exception on attempts 0 and 1 and returns on attempt 2
incurs exactly 2 delays and its third attempt's value is returned; an
operation that raises on all 4 attempts propagates the final attempt's
exception unmodified, after exactly the attempts 0–3 and no more. -/
theorem claim_C7 {α : Type} (f g : Nat → Outcome α) (a : α)
    (e0 e1 d0 d1 d2 d3 : String)
    (hf0 : f 0 = .netErr e0) (hf1 : f 1 = .netErr e1) (hf2 : f 2 = .ok a)
    (hg0 : g 0 = .netErr d0) (hg1 : g 1 = .netErr d1)
    (hg2 : g 2 = .netErr d2) (hg3 : g 3 = .netErr d3) :
    retry_with_backoff 3 f = (.ok a, [0, 1, 2]) ∧
    delayCount (retry_with_backoff 3 f) = 2 ∧
    retry_with_backoff 3 g = (.error d3, [0, 1, 2, 3]) := by
  refine ⟨?_, ?_, ?_⟩ <;>
    simp [retry_with_backoff, retryAux, delayCount, hf0, hf1, hf2, hg0, hg1, hg2, hg3]

/-- The fail-twice-then-succeed attempt sequence of the C7 witness. -/
def c7f : Nat → Outcome Nat := fun x => if x < 2 then .netErr "ConnectionError" else .ok 42

/-- The always-failing attempt sequence of the C7 witness. -/
def c7g : Nat → Outcome Nat := fun _ => .netErr "Timeout"

/-- Witness for C7 at two concrete attempt sequences. -/
theorem claim_C7_witness :
    retry_with_backoff 3 c7f = (.ok 42, [0, 1, 2]) ∧
    delayCount (retry_with_backoff 3 c7f) = 2 ∧
    retry_with_backoff 3 c7g = (.error "Timeout", [0, 1, 2, 3]) :=
  claim_C7 c7f c7g 42 "ConnectionError" "ConnectionError" "Timeout" "Timeout" "Timeout" "Timeout"
    rfl rfl rfl rfl rfl rfl rfl

/-- Evaluate `fmt2` once the scaled value is a known integer. -/
theorem fmt2_of {q : ℚ} {m : ℤ} (h : q * 100 = (m : ℚ)) :
    fmt2 q =
      (if m < 0 then "-" else "") ++ toString (m.natAbs / 100) ++ "." ++
        (if m.natAbs % 100 < 10 then "0" ++ toString (m.natAbs % 100)
         else toString (m.natAbs % 100)) := by
  have hr : roundHalfEven (q * 100) = m := by rw [h, roundHalfEven_intCast]
  simp only [fmt2, hr]

/-- Evaluation of `process_showtime_data` on a payload with a single
showtime whose category fold succeeds. -/
theorem process_single (area : String) (cs : List Category) (a : ShowAgg)
    (hfold : processCategories initShowAgg cs = .ok a) :
    process_showtime_data area (some (singleShowtimePayload cs)) = .ok
      { AreaName := area
        ShowCount := 1
        FastFillingShows :=
          if fast_filling_threshold ≤ showOccupancy a ∧ showOccupancy a < 100 then 1 else 0
        SoldOutShows := if showOccupancy a ≥ 99.5 then 1 else 0
        Occupancy :=
          fmt2 (if a.total_max_seats > 0 then
            (a.total_booked_tickets : ℚ) / (a.total_max_seats : ℚ) * 100 else 0) ++ "%"
        BookedGross := a.booked_gross
        MaxCapacityGross := a.total_gross
        BookedTicketsCount := a.total_booked_tickets
        TotalTicketsCount := a.total_max_seats } := by
  simp only [process_showtime_data, singleShowtimePayload, processShowDetails, processVenues,
    processShowTimes, stepShowTime, optList, hfold, exBind_ok, exPure, exBind_err]
  simp [initGrand]

/-- C1: a single showtime with positive total capacity whose occupancy lies
in `[99.5, 100)` is counted in BOTH `FastFillingShows` and `SoldOutShows`. -/
theorem claim_C1 (area : String) (cs : List Category) (a : ShowAgg)
    (hfold : processCategories initShowAgg cs = .ok a)
    (hpos : 0 < a.total_max_seats)
    (hlo : (99.5 : ℚ) ≤ (a.total_booked_tickets : ℚ) / (a.total_max_seats : ℚ) * 100)
    (hhi : (a.total_booked_tickets : ℚ) / (a.total_max_seats : ℚ) * 100 < 100) :
    ∃ s, process_showtime_data area (some (singleShowtimePayload cs)) = .ok s ∧
      s.FastFillingShows = 1 ∧ s.SoldOutShows = 1 := by
  have hocc : showOccupancy a = (a.total_booked_tickets : ℚ) / (a.total_max_seats : ℚ) * 100 := by
    simp [showOccupancy, hpos]
  have hfast : fast_filling_threshold ≤ showOccupancy a ∧ showOccupancy a < 100 := by
    rw [hocc]
    exact ⟨le_trans (by norm_num [fast_filling_threshold]) hlo, hhi⟩
  have hsold : showOccupancy a ≥ 99.5 := by rw [hocc]; exact hlo
  refine ⟨_, process_single area cs a hfold, ?_, ?_⟩
  · simp [hfast]
  · simp [hsold]

/-- The single category of the C1 witness: `MaxSeats=200, SeatsAvail=1`. -/
def c1cats : List Category := [⟨some (.int 200), some (.int 1), none⟩]

/-- Category fold of the C1 witness. -/
theorem c1fold : processCategories initShowAgg c1cats = .ok ⟨200, 1, 199, 0, 0⟩ := by
  simp [c1cats, processCategories, stepCategory, pyInt, pyFloat, initShowAgg, exBind_ok, exPure]

/-- Witness for C1 at `MaxSeats=200, SeatsAvail=1` (occupancy exactly
99.5%). -/
theorem claim_C1_witness :
    ∃ s, process_showtime_data "Hyderabad" (some (singleShowtimePayload c1cats)) = .ok s ∧
      s.FastFillingShows = 1 ∧ s.SoldOutShows = 1 :=
  claim_C1 "Hyderabad" c1cats ⟨200, 1, 199, 0, 0⟩ c1fold (by norm_num) (by norm_num) (by norm_num)

/-- Appending a category with all three fields missing is a no-op on the
accumulator (`.get("…", 0)` defaults every coercion to 0). -/
theorem stepCategory_absent (acc : ShowAgg) :
    stepCategory acc ⟨none, none, none⟩ = .ok acc := by
  simp [stepCategory, pyInt, pyFloat, exBind_ok, exPure]

/-- An all-fields-missing category appended to a category list does not
change the per-showtime fold. -/
theorem processCategories_append_absent (cs : List Category) :
    ∀ acc, processCategories acc (cs ++ [⟨none, none, none⟩]) = processCategories acc cs := by
  induction cs with
  | nil =>
    intro acc
    simp [processCategories, stepCategory_absent, exBind_ok, exPure]
  | cons c cs ih =>
    intro acc
    simp only [List.cons_append, processCategories]
    cases h : stepCategory acc c with
    | error e => simp [h, exBind_err]
    | ok a' => simp [h, exBind_ok, ih]

/-- C2 (amended): a category whose `MaxSeats`/`SeatsAvail`/`CurPrice` keys
are all missing contributes 0 to every aggregate and never raises —
`stepCategory` returns its accumulator unchanged, and appending such a
category to a showtime leaves `process_showtime_data` unchanged.  (As the
counterexample shows, a present-but-null or non-coercible field raises
instead of defaulting, so the original "missing, null, or fails numeric
coercion" claim only survives for the missing case.) -/
theorem claim_C2_amended (area : String) (acc : ShowAgg) (cs : List Category) :
    stepCategory acc ⟨none, none, none⟩ = .ok acc ∧
    process_showtime_data area (some (singleShowtimePayload (cs ++ [⟨none, none, none⟩]))) =
      process_showtime_data area (some (singleShowtimePayload cs)) := by
  refine ⟨stepCategory_absent acc, ?_⟩
  simp only [process_showtime_data, singleShowtimePayload, processShowDetails, processVenues,
    processShowTimes, stepShowTime, optList, processCategories_append_absent]

/-- Evaluation of `process_showtime_data` on a present payload whose
show-detail fold succeeds. -/
theorem process_some_eval (area : String) (p : Payload) (g : Grand)
    (hd : processShowDetails initGrand (optList p.ShowDetails) = .ok g) :
    process_showtime_data area (some p) = .ok
      { AreaName := area
        ShowCount := g.total_show_count
        FastFillingShows := g.fast_filling_show_count
        SoldOutShows := g.sold_out_show_count
        Occupancy :=
          fmt2 (if g.grand_total_max_seats > 0 then
            (g.grand_total_booked_tickets : ℚ) / (g.grand_total_max_seats : ℚ) * 100 else 0) ++ "%"
        BookedGross := g.grand_booked_gross
        MaxCapacityGross := g.grand_total_gross
        BookedTicketsCount := g.grand_total_booked_tickets
        TotalTicketsCount := g.grand_total_max_seats } := by
  simp only [process_showtime_data, hd, exBind_ok, exPure]

/-- A raising show-detail fold makes `process_showtime_data` raise. -/
theorem process_some_err (area : String) (p : Payload) (e : String)
    (hd : processShowDetails initGrand (optList p.ShowDetails) = .error e) :
    process_showtime_data area (some p) = .error e := by
  simp only [process_showtime_data, hd, exBind_err]

/-- Evaluation of `process_showtime_data` on an absent payload. -/
theorem process_none_eval (area : String) :
    process_showtime_data area none = .ok
      { AreaName := area
        ShowCount := initGrand.total_show_count
        FastFillingShows := initGrand.fast_filling_show_count
        SoldOutShows := initGrand.sold_out_show_count
        Occupancy :=
          fmt2 (if initGrand.grand_total_max_seats > 0 then
            (initGrand.grand_total_booked_tickets : ℚ) /
              (initGrand.grand_total_max_seats : ℚ) * 100 else 0) ++ "%"
        BookedGross := initGrand.grand_booked_gross
        MaxCapacityGross := initGrand.grand_total_gross
        BookedTicketsCount := initGrand.grand_total_booked_tickets
        TotalTicketsCount := initGrand.grand_total_max_seats } := by
  simp only [process_showtime_data, exPure, exBind_ok]

/-- A successful showtime step increments `total_show_count` by exactly 1
and each classification counter by at most 1. -/
theorem stepShowTime_counts {g g' : Grand} {st : ShowTime}
    (h : stepShowTime g st = .ok g') :
    g'.total_show_count = g.total_show_count + 1 ∧
    g'.fast_filling_show_count ≤ g.fast_filling_show_count + 1 ∧
    g.fast_filling_show_count ≤ g'.fast_filling_show_count ∧
    g'.sold_out_show_count ≤ g.sold_out_show_count + 1 ∧
    g.sold_out_show_count ≤ g'.sold_out_show_count := by
  unfold stepShowTime at h
  cases hc : processCategories initShowAgg (optList st.Categories) with
  | error e => rw [hc] at h; simp [exBind_err] at h
  | ok a =>
    rw [hc] at h
    simp only [exBind_ok, exPure, Except.ok.injEq] at h
    subst h
    refine ⟨rfl, ?_, ?_, ?_, ?_⟩ <;> dsimp <;> split <;> omega

/-- Both classification counters are bounded by the show count. -/
def CountersOk (g : Grand) : Prop :=
  g.fast_filling_show_count ≤ g.total_show_count ∧
  g.sold_out_show_count ≤ g.total_show_count

theorem stepShowTime_countersOk {g g' : Grand} {st : ShowTime}
    (h : stepShowTime g st = .ok g') (hg : CountersOk g) : CountersOk g' := by
  obtain ⟨h1, h2, h3, h4, h5⟩ := stepShowTime_counts h
  obtain ⟨hf, hs⟩ := hg
  exact ⟨by omega, by omega⟩

theorem processShowTimes_countersOk (sts : List ShowTime) :
    ∀ {g g' : Grand}, processShowTimes g sts = .ok g' → CountersOk g → CountersOk g' := by
  induction sts with
  | nil =>
    intro g g' h hg
    simp only [processShowTimes, exPure, Except.ok.injEq] at h
    subst h; exact hg
  | cons st sts ih =>
    intro g g' h hg
    simp only [processShowTimes] at h
    cases hc : stepShowTime g st with
    | error e => rw [hc] at h; simp [exBind_err] at h
    | ok gm =>
      rw [hc, exBind_ok] at h
      exact ih h (stepShowTime_countersOk hc hg)

theorem processVenues_countersOk (vs : List Venue) :
    ∀ {g g' : Grand}, processVenues g vs = .ok g' → CountersOk g → CountersOk g' := by
  induction vs with
  | nil =>
    intro g g' h hg
    simp only [processVenues, exPure, Except.ok.injEq] at h
    subst h; exact hg
  | cons v vs ih =>
    intro g g' h hg
    simp only [processVenues] at h
    cases hc : processShowTimes g (optList v.ShowTimes) with
    | error e => rw [hc] at h; simp [exBind_err] at h
    | ok gm =>
      rw [hc, exBind_ok] at h
      exact ih h (processShowTimes_countersOk _ hc hg)

theorem processShowDetails_countersOk (sds : List ShowDetail) :
    ∀ {g g' : Grand}, processShowDetails g sds = .ok g' → CountersOk g → CountersOk g' := by
  induction sds with
  | nil =>
    intro g g' h hg
    simp only [processShowDetails, exPure, Except.ok.injEq] at h
    subst h; exact hg
  | cons sd sds ih =>
    intro g g' h hg
    simp only [processShowDetails] at h
    cases hc : processVenues g (optList sd.Venues) with
    | error e => rw [hc] at h; simp [exBind_err] at h
    | ok gm =>
      rw [hc, exBind_ok] at h
      exact ih h (processVenues_countersOk _ hc hg)

/-- C10: every `CitySummary` produced by `process_showtime_data` has
`FastFillingShows ≤ ShowCount` and `SoldOutShows ≤ ShowCount`: each
showtime increments `ShowCount` exactly once and each classification
counter at most once. -/
theorem claim_C10 (area : String) (data : Option Payload) (s : CitySummary)
    (h : process_showtime_data area data = .ok s) :
    s.FastFillingShows ≤ s.ShowCount ∧ s.SoldOutShows ≤ s.ShowCount := by
  cases data with
  | none =>
    rw [process_none_eval area, Except.ok.injEq] at h
    subst h
    constructor <;> simp [initGrand]
  | some p =>
    cases hd : processShowDetails initGrand (optList p.ShowDetails) with
    | error e => rw [process_some_err area p e hd] at h; exact absurd h (by simp)
    | ok g =>
      rw [process_some_eval area p g hd, Except.ok.injEq] at h
      subst h
      have hinv := processShowDetails_countersOk (optList p.ShowDetails) hd
        (by constructor <;> simp [CountersOk, initGrand])
      exact ⟨hinv.1, hinv.2⟩

/-- The single category of the C10 witness: `MaxSeats=50, SeatsAvail=10,
CurPrice=100` (occupancy 80%). -/
def c10cats : List Category := [⟨some (.int 50), some (.int 10), some (.int 100)⟩]

/-- Category fold of the C10 witness. -/
theorem c10fold : processCategories initShowAgg c10cats = .ok ⟨50, 10, 40, 5000, 4000⟩ := by
  simp [c10cats, processCategories, stepCategory, pyInt, pyFloat, initShowAgg, exBind_ok, exPure]
  norm_num

/-- Full evaluation of `process_showtime_data` on the C10 witness input. -/
theorem c10eval :
    process_showtime_data "Bangalore" (some (singleShowtimePayload c10cats)) =
      .ok ⟨"Bangalore", 1, 1, 0, "80.00%", 4000, 5000, 40, 50⟩ := by
  rw [process_single "Bangalore" c10cats ⟨50, 10, 40, 5000, 4000⟩ c10fold]
  have h3 : showOccupancy (⟨50, 10, 40, 5000, 4000⟩ : ShowAgg) = 80 := by
    simp only [showOccupancy]
    norm_num
  have h2 : fmt2 (80 : ℚ) = "80.00" := by
    rw [fmt2_of (show (80 : ℚ) * 100 = ((8000 : ℤ) : ℚ) by norm_num)]
    rfl
  norm_num [h3, h2, fast_filling_threshold]
  rfl

/-- Witness for C10 at a one-showtime payload with occupancy 80%. -/
theorem claim_C10_witness :
    (⟨"Bangalore", 1, 1, 0, "80.00%", 4000, 5000, 40, 50⟩ : CitySummary).FastFillingShows ≤
      (⟨"Bangalore", 1, 1, 0, "80.00%", 4000, 5000, 40, 50⟩ : CitySummary).ShowCount ∧
    (⟨"Bangalore", 1, 1, 0, "80.00%", 4000, 5000, 40, 50⟩ : CitySummary).SoldOutShows ≤
      (⟨"Bangalore", 1, 1, 0, "80.00%", 4000, 5000, 40, 50⟩ : CitySummary).ShowCount :=
  claim_C10 "Bangalore" (some (singleShowtimePayload c10cats)) _ c10eval
/-- Unfold one showtime of the category collection. -/
theorem showTimesCats_cons (st : ShowTime) (sts : List ShowTime) :
    showTimesCats (st :: sts) = optList st.Categories ++ showTimesCats sts := by
  simp [showTimesCats]

/-- Unfold one venue of the category collection. -/
theorem venuesCats_cons (v : Venue) (vs : List Venue) :
    venuesCats (v :: vs) = showTimesCats (optList v.ShowTimes) ++ venuesCats vs := by
  simp [venuesCats]

/-- Unfold one show detail of the category collection. -/
theorem detailsCats_cons (sd : ShowDetail) (sds : List ShowDetail) :
    detailsCats (sd :: sds) = venuesCats (optList sd.Venues) ++ detailsCats sds := by
  simp [detailsCats]

/-- A well-bounded category preserves `0 ≤ booked ≤ max` on the
per-showtime accumulator. -/
theorem stepCategory_bounds {acc acc' : ShowAgg} {c : Category}
    (hc : catOK c = true) (h : stepCategory acc c = .ok acc')
    (hb : 0 ≤ acc.total_booked_tickets ∧ acc.total_booked_tickets ≤ acc.total_max_seats) :
    0 ≤ acc'.total_booked_tickets ∧ acc'.total_booked_tickets ≤ acc'.total_max_seats := by
  unfold stepCategory at h
  cases hm : pyInt (c.MaxSeats.getD (.int 0)) with
  | error e => rw [hm] at h; simp [exBind_err] at h
  | ok m =>
    rw [hm, exBind_ok] at h
    cases ha : pyInt (c.SeatsAvail.getD (.int 0)) with
    | error e => rw [ha] at h; simp [exBind_err] at h
    | ok av =>
      rw [ha, exBind_ok] at h
      cases hp : pyFloat (c.CurPrice.getD (.int 0)) with
      | error e => rw [hp] at h; simp [exBind_err] at h
      | ok pr =>
        rw [hp] at h
        simp only [exBind_ok, exPure, Except.ok.injEq] at h
        subst h
        have hcat : 0 ≤ av ∧ av ≤ m := by
          unfold catOK at hc
          rw [hm, ha] at hc
          exact of_decide_eq_true hc
        dsimp
        omega

/-- The per-showtime fold preserves `0 ≤ booked ≤ max` when every
category is well-bounded. -/
theorem processCategories_bounds : ∀ (cs : List Category) {acc a : ShowAgg},
    (∀ c ∈ cs, catOK c = true) → processCategories acc cs = .ok a →
    (0 ≤ acc.total_booked_tickets ∧ acc.total_booked_tickets ≤ acc.total_max_seats) →
    0 ≤ a.total_booked_tickets ∧ a.total_booked_tickets ≤ a.total_max_seats := by
  intro cs
  induction cs with
  | nil =>
    intro acc a _ h hb
    simp only [processCategories, exPure, Except.ok.injEq] at h
    subst h; exact hb
  | cons c cs ih =>
    intro acc a hall h hb
    simp only [processCategories] at h
    cases hc : stepCategory acc c with
    | error e => rw [hc] at h; simp [exBind_err] at h
    | ok acc' =>
      rw [hc, exBind_ok] at h
      exact ih (fun x hx => hall x (List.mem_cons_of_mem _ hx)) h
        (stepCategory_bounds (hall c (List.mem_cons_self c cs)) hc hb)

/-- Grand booked tickets lie between 0 and grand max seats. -/
def SeatsOk (g : Grand) : Prop :=
  0 ≤ g.grand_total_booked_tickets ∧
  g.grand_total_booked_tickets ≤ g.grand_total_max_seats

/-- A showtime whose categories are all well-bounded preserves `SeatsOk`. -/
theorem stepShowTime_seats {g g' : Grand} {st : ShowTime}
    (hall : ∀ c ∈ optList st.Categories, catOK c = true)
    (h : stepShowTime g st = .ok g') (hg : SeatsOk g) : SeatsOk g' := by
  unfold stepShowTime at h
  cases hc : processCategories initShowAgg (optList st.Categories) with
  | error e => rw [hc] at h; simp [exBind_err] at h
  | ok a =>
    rw [hc] at h
    simp only [exBind_ok, exPure, Except.ok.injEq] at h
    subst h
    have ha := processCategories_bounds _ hall hc (by simp [initShowAgg])
    obtain ⟨h1, h2⟩ := hg
    unfold SeatsOk
    dsimp
    omega

/-- `SeatsOk` is preserved along the showtime loop. -/
theorem processShowTimes_seats : ∀ (sts : List ShowTime) {g g' : Grand},
    (∀ c ∈ showTimesCats sts, catOK c = true) →
    processShowTimes g sts = .ok g' → SeatsOk g → SeatsOk g' := by
  intro sts
  induction sts with
  | nil =>
    intro g g' _ h hg
    simp only [processShowTimes, exPure, Except.ok.injEq] at h
    subst h; exact hg
  | cons st sts ih =>
    intro g g' hall h hg
    simp only [processShowTimes] at h
    cases hc : stepShowTime g st with
    | error e => rw [hc] at h; simp [exBind_err] at h
    | ok gm =>
      rw [hc, exBind_ok] at h
      refine ih (fun x hx => hall x ?_) h
        (stepShowTime_seats (fun x hx => hall x ?_) hc hg)
      · rw [showTimesCats_cons]; exact List.mem_append_right _ hx
      · rw [showTimesCats_cons]; exact List.mem_append_left _ hx

/-- `SeatsOk` is preserved along the venue loop. -/
theorem processVenues_seats : ∀ (vs : List Venue) {g g' : Grand},
    (∀ c ∈ venuesCats vs, catOK c = true) →
    processVenues g vs = .ok g' → SeatsOk g → SeatsOk g' := by
  intro vs
  induction vs with
  | nil =>
    intro g g' _ h hg
    simp only [processVenues, exPure, Except.ok.injEq] at h
    subst h; exact hg
  | cons v vs ih =>
    intro g g' hall h hg
    simp only [processVenues] at h
    cases hc : processShowTimes g (optList v.ShowTimes) with
    | error e => rw [hc] at h; simp [exBind_err] at h
    | ok gm =>
      rw [hc, exBind_ok] at h
      refine ih (fun x hx => hall x ?_) h
        (processShowTimes_seats _ (fun x hx => hall x ?_) hc hg)
      · rw [venuesCats_cons]; exact List.mem_append_right _ hx
      · rw [venuesCats_cons]; exact List.mem_append_left _ hx

/-- `SeatsOk` is preserved along the show-detail loop. -/
theorem processShowDetails_seats : ∀ (sds : List ShowDetail) {g g' : Grand},
    (∀ c ∈ detailsCats sds, catOK c = true) →
    processShowDetails g sds = .ok g' → SeatsOk g → SeatsOk g' := by
  intro sds
  induction sds with
  | nil =>
    intro g g' _ h hg
    simp only [processShowDetails, exPure, Except.ok.injEq] at h
    subst h; exact hg
  | cons sd sds ih =>
    intro g g' hall h hg
    simp only [processShowDetails] at h
    cases hc : processVenues g (optList sd.Venues) with
    | error e => rw [hc] at h; simp [exBind_err] at h
    | ok gm =>
      rw [hc, exBind_ok] at h
      refine ih (fun x hx => hall x ?_) h
        (processVenues_seats _ (fun x hx => hall x ?_) hc hg)
      · rw [detailsCats_cons]; exact List.mem_append_right _ hx
      · rw [detailsCats_cons]; exact List.mem_append_left _ hx

/-- C6 (amended): whenever every category of the payload is well-bounded
(coerced `0 ≤ SeatsAvail ≤ MaxSeats`), the produced summary satisfies
`0 ≤ BookedTicketsCount ≤ TotalTicketsCount`.  (Unconditionally the claim
is false: see the counterexample, where `SeatsAvail > MaxSeats` drives
`BookedTicketsCount` negative.) -/
theorem claim_C6_amended (area : String) (data : Option Payload) (s : CitySummary)
    (hall : ∀ c ∈ payloadCats data, catOK c = true)
    (h : process_showtime_data area data = .ok s) :
    0 ≤ s.BookedTicketsCount ∧ s.BookedTicketsCount ≤ s.TotalTicketsCount := by
  cases data with
  | none =>
    rw [process_none_eval area, Except.ok.injEq] at h
    subst h
    constructor <;> simp [initGrand]
  | some p =>
    cases hd : processShowDetails initGrand (optList p.ShowDetails) with
    | error e => rw [process_some_err area p e hd] at h; exact absurd h (by simp)
    | ok g =>
      rw [process_some_eval area p g hd, Except.ok.injEq] at h
      subst h
      have hinv := processShowDetails_seats (optList p.ShowDetails) hall hd
        (by constructor <;> simp [SeatsOk, initGrand])
      exact ⟨hinv.1, hinv.2⟩

/-- Category fold of the C6 counterexample. -/
theorem c6cexfold :
    processCategories initShowAgg [⟨some (.int 5), some (.int 10), none⟩] =
      .ok ⟨5, 10, -5, 0, 0⟩ := by
  simp [processCategories, stepCategory, pyInt, pyFloat, initShowAgg, exBind_ok, exPure]

/-- Counterexample to C6 as stated (“for any input payload”): a category
with `MaxSeats=5, SeatsAvail=10` yields `BookedTicketsCount = -5`,
violating `0 ≤ BookedTicketsCount ≤ TotalTicketsCount`. -/
theorem claim_C6_cex :
    process_showtime_data "Hyderabad"
        (some (singleShowtimePayload [⟨some (.int 5), some (.int 10), none⟩])) =
      .ok ⟨"Hyderabad", 1, 0, 0, "-100.00%", 0, 0, -5, 5⟩ ∧
    ¬ ((0 : ℤ) ≤ (-5 : ℤ) ∧ (-5 : ℤ) ≤ (5 : ℤ)) := by
  constructor
  · rw [process_single "Hyderabad" _ ⟨5, 10, -5, 0, 0⟩ c6cexfold]
    have h3 : showOccupancy (⟨5, 10, -5, 0, 0⟩ : ShowAgg) = -100 := by
      simp only [showOccupancy]
      norm_num
    have h2 : fmt2 (-100 : ℚ) = "-100.00" := by
      rw [fmt2_of (show (-100 : ℚ) * 100 = ((-10000 : ℤ) : ℚ) by norm_num)]
      rfl
    norm_num [h3, h2, fast_filling_threshold]
    rfl
  · decide

/-- The single category of the C6 witness: `MaxSeats=100, SeatsAvail=40,
CurPrice=250`. -/
def c6cats : List Category := [⟨some (.int 100), some (.int 40), some (.int 250)⟩]

/-- Category fold of the C6 witness. -/
theorem c6fold : processCategories initShowAgg c6cats = .ok ⟨100, 40, 60, 25000, 15000⟩ := by
  simp [c6cats, processCategories, stepCategory, pyInt, pyFloat, initShowAgg, exBind_ok, exPure]
  norm_num

/-- Full evaluation of `process_showtime_data` on the C6 witness input. -/
theorem c6eval :
    process_showtime_data "Chennai" (some (singleShowtimePayload c6cats)) =
      .ok ⟨"Chennai", 1, 0, 0, "60.00%", 15000, 25000, 60, 100⟩ := by
  rw [process_single "Chennai" c6cats ⟨100, 40, 60, 25000, 15000⟩ c6fold]
  have h3 : showOccupancy (⟨100, 40, 60, 25000, 15000⟩ : ShowAgg) = 60 := by
    simp only [showOccupancy]
    norm_num
  have h2 : fmt2 (60 : ℚ) = "60.00" := by
    rw [fmt2_of (show (60 : ℚ) * 100 = ((6000 : ℤ) : ℚ) by norm_num)]
    rfl
  norm_num [h3, h2, fast_filling_threshold]
  rfl

/-- Witness for C6 (amended) at a one-showtime payload with occupancy 60%. -/
theorem claim_C6_witness :
    0 ≤ (⟨"Chennai", 1, 0, 0, "60.00%", 15000, 25000, 60, 100⟩ : CitySummary).BookedTicketsCount ∧
    (⟨"Chennai", 1, 0, 0, "60.00%", 15000, 25000, 60, 100⟩ : CitySummary).BookedTicketsCount ≤
      (⟨"Chennai", 1, 0, 0, "60.00%", 15000, 25000, 60, 100⟩ : CitySummary).TotalTicketsCount :=
  claim_C6_amended "Chennai" (some (singleShowtimePayload c6cats)) _ (by decide) c6eval
/-- C4: the final row of every successful `fetch_all_showtimes` result is
the `OVERALL_TOTAL` row whose numeric fields are the sums of the
corresponding fields over all city rows, and whose `Occupancy` is the
ratio of summed booked to summed total tickets formatted to two decimals
with a trailing `%` (`"0.00%"` when the summed total is not positive) —
not the mean of the per-city percentages. -/
theorem claim_C4 (cities : List (String × Option Payload)) (out : List CitySummary)
    (h : fetch_all_showtimes cities = .ok out) :
    out.getLast? = some
      { AreaName := "OVERALL_TOTAL"
        ShowCount := (out.dropLast.map (·.ShowCount)).sum
        FastFillingShows := (out.dropLast.map (·.FastFillingShows)).sum
        SoldOutShows := (out.dropLast.map (·.SoldOutShows)).sum
        BookedGross := (out.dropLast.map (·.BookedGross)).sum
        MaxCapacityGross := (out.dropLast.map (·.MaxCapacityGross)).sum
        BookedTicketsCount := (out.dropLast.map (·.BookedTicketsCount)).sum
        TotalTicketsCount := (out.dropLast.map (·.TotalTicketsCount)).sum
        Occupancy :=
          if (out.dropLast.map (·.TotalTicketsCount)).sum > 0 then
            fmt2 (((out.dropLast.map (·.BookedTicketsCount)).sum : ℚ) /
              ((out.dropLast.map (·.TotalTicketsCount)).sum : ℚ) * 100) ++ "%"
          else "0.00%" } := by
  unfold fetch_all_showtimes at h
  cases hg : gatherResults cities with
  | error e => rw [hg] at h; simp [exBind_err] at h
  | ok res =>
    simp only [hg, exBind_ok, exPure, Except.ok.injEq] at h
    subst h
    rw [List.dropLast_concat, List.getLast?_concat]
    rfl

/-- Witness for C4 at a single city whose fetch yields no payload. -/
theorem claim_C4_witness :
    ([⟨"OVERALL_TOTAL", 0, 0, 0, "0.00%", 0, 0, 0, 0⟩] : List CitySummary).getLast? =
      some ⟨"OVERALL_TOTAL", 0, 0, 0, "0.00%", 0, 0, 0, 0⟩ :=
  claim_C4 [("Chennai", none)] [⟨"OVERALL_TOTAL", 0, 0, 0, "0.00%", 0, 0, 0, 0⟩] rfl

/-- C5: in every successful `fetch_all_showtimes` result, all rows except
the last are sorted in descending order of the occupancy parsed from the
`%`-suffixed string (`occGE`), and the final row is always the
`OVERALL_TOTAL` row. -/
theorem claim_C5 (cities : List (String × Option Payload)) (out : List CitySummary)
    (h : fetch_all_showtimes cities = .ok out) :
    out.dropLast.Sorted occGE ∧
    ∃ tot, out.getLast? = some tot ∧ tot.AreaName = "OVERALL_TOTAL" := by
  unfold fetch_all_showtimes at h
  cases hg : gatherResults cities with
  | error e => rw [hg] at h; simp [exBind_err] at h
  | ok res =>
    simp only [hg, exBind_ok, exPure, Except.ok.injEq] at h
    subst h
    constructor
    · rw [List.dropLast_concat]
      exact List.sorted_insertionSort occGE res
    · exact ⟨overall_total (pySortDesc res), List.getLast?_concat _, rfl⟩

/-- Witness for C5 at a single city whose fetch yields no payload. -/
theorem claim_C5_witness :
    ([⟨"OVERALL_TOTAL", 0, 0, 0, "0.00%", 0, 0, 0, 0⟩] : List CitySummary).dropLast.Sorted occGE ∧
    ∃ tot, ([⟨"OVERALL_TOTAL", 0, 0, 0, "0.00%", 0, 0, 0, 0⟩] : List CitySummary).getLast? =
      some tot ∧ tot.AreaName = "OVERALL_TOTAL" :=
  claim_C5 [("Hyderabad", none)] [⟨"OVERALL_TOTAL", 0, 0, 0, "0.00%", 0, 0, 0, 0⟩] rfl

end BMS
